import Mathlib

/-!
# ProductCard: the storefront quantity widget of `assets/product-card.js`

A shallow embedding of the `ProductCard` custom element.

* The widget object (`this.state`, `this.variantId`, `this.maxInventory`, the three
  controls found by `initializeElements`, the element's class list) is the record
  `ProductCard`.  The embedding covers a card whose markup contains the quantity input
  and both buttons, which is the widget every property below talks about.
* Quantities are JavaScript numbers holding integers; they are embedded as `Int`.
  The one sum the widget computes, `this.state.quantity + change`, is a sum of
  doubles: `numberAdd` rounds the exact sum to the nearest double, ties to even
  (`roundToDouble`), so it is exact up to `2 ^ 53` and rounds above.
* An `async` method is run to completion.  The remote cart is the parameter `World`:
  it answers each request with a `FetchResult`.  What a method does to the outside
  (requests, console, notifications, cart counter, timers) is returned as a list of
  `Effect`s, in program order.
* A value thrown inside a method is a `Thrown`; a method that can throw returns
  `Except Thrown _`.
-/

namespace ProductCard

/-! ## Data model -/

/-- The `this.state` object created by the constructor. -/
structure State where
  loading : Bool
  quantity : Int
  deriving DecidableEq, Repr

/-- The `.quantity-input` element: its `value`, its `dataset.itemKey` (absent until
written) and its `disabled` flag. -/
structure QuantityInput where
  value : String
  itemKey : Option String
  disabled : Bool
  deriving DecidableEq, Repr

/-- A `.plus` or `.minus` button: only its `disabled` flag is used. -/
structure Button where
  disabled : Bool
  deriving DecidableEq, Repr

end ProductCard

/-- The custom element: state, configuration read by `initializeElements`, the three
controls and the element's own class list. -/
structure ProductCard where
  state : ProductCard.State
  variantId : Option String
  maxInventory : Int
  quantityInput : ProductCard.QuantityInput
  plusButton : ProductCard.Button
  minusButton : ProductCard.Button
  classList : List String
  deriving DecidableEq, Repr

namespace ProductCard

/-- The three requests the widget sends.
`getCart` is `fetch('/cart.js')`;
`cartAdd id quantity` is `POST /cart/add.js` with body `items: [(id, quantity)]`
(`id` is `this.variantId`, possibly `undefined`);
`cartChange id quantity` is `POST /cart/change.js` with body `(id, quantity)`. -/
inductive Request where
  | getCart
  | cartAdd (id : Option String) (quantity : Int)
  | cartChange (id : String) (quantity : Int)
  deriving DecidableEq, Repr

/-- The URL passed to `fetch`. -/
def Request.url : Request → String
  | .getCart => "/cart.js"
  | .cartAdd _ _ => "/cart/add.js"
  | .cartChange _ _ => "/cart/change.js"

/-- The HTTP method of the request. -/
def Request.method : Request → String
  | .getCart => "GET"
  | .cartAdd _ _ => "POST"
  | .cartChange _ _ => "POST"

/-- A line of the remote cart: the fields the widget reads. -/
structure CartLine where
  variant_id : Int
  quantity : Int
  key : String
  deriving DecidableEq, Repr

/-- The JSON body of a cart response: the fields the widget reads. -/
structure CartData where
  items : List CartLine
  item_count : Int
  deriving DecidableEq, Repr

/-- What `await fetch(...)` followed by `response.json()` can give: the fetch promise
rejects, or it resolves to a response with an `ok` flag whose `json()` either resolves
to a body (`some`) or rejects (`none`). -/
inductive FetchResult where
  | rejected
  | response (ok : Bool) (json : Option CartData)
  deriving DecidableEq, Repr

/-- A request succeeded: a success status and a readable body. -/
def FetchResult.succeeded : FetchResult → Bool
  | .response true (some _) => true
  | _ => false

/-- The outside of the widget: the remote cart answering requests, and whether the
document contains a `.cart-counter` element. -/
structure World where
  respond : Request → FetchResult
  cartCounter : Bool

/-- Callbacks handed to `setTimeout`: the removal of the counter highlight, and the
hiding of a notification (which adds `notification--hide` and schedules the removal of
the element 300 ms later). -/
inductive TimerTask where
  | removeCounterHighlight
  | hideNotification
  deriving DecidableEq, Repr

/-- Observable actions on the outside, in program order. -/
inductive Effect where
  | fetch (request : Request)
  | consoleError (message : String)
  | appendNotification (className : String) (textContent : String)
  | setCounterText (textContent : String)
  | addCounterClass (className : String)
  | setTimeout (task : TimerTask) (delay : Nat)
  deriving DecidableEq, Repr

/-- A value thrown inside a method: an `Error` made by the widget, a rejected `fetch`,
or a rejected `response.json()`. -/
inductive Thrown where
  | error (message : String)
  | fetchRejected
  | jsonRejected
  deriving DecidableEq, Repr

/-- The requests among a list of effects. -/
def requestsOf : List Effect → List Request
  | [] => []
  | .fetch r :: es => r :: requestsOf es
  | _ :: es => requestsOf es

/-- The notifications (class name, text) among a list of effects. -/
def notificationsOf : List Effect → List (String × String)
  | [] => []
  | .appendNotification c t :: es => (c, t) :: notificationsOf es
  | _ :: es => notificationsOf es

/-! ## Number and string primitives -/

/-- `String(n)` for an integer-valued number: decimal digits, with a leading minus
sign for a negative one. -/
def numberToString (n : Int) : String := toString n

/-- How many bits the magnitude `m` has beyond 53 (`fuel` bounds the halvings; `m`
itself is enough). -/
def excessBits : Nat → Nat → Nat
  | 0, _ => 0
  | fuel + 1, m => if m < 2 ^ 53 then 0 else excessBits fuel (m / 2) + 1

/-- The double nearest to the integer `x`, ties to even: `x` itself below `2 ^ 53`;
above, the 53 leading bits of the magnitude are kept and the `e` low bits are rounded
away.  (A magnitude too large for a finite double, which JavaScript turns into
`Infinity`, stays the rounded integer here: it exceeds every finite number, which is
all the clamp of `handleQuantityChange` asks of it.) -/
def roundToDouble (x : Int) : Int :=
  if x.natAbs < 2 ^ 53 then x
  else
    let e := excessBits x.natAbs x.natAbs
    let lo := x.natAbs / 2 ^ e
    let r := x.natAbs % 2 ^ e
    let half := 2 ^ e / 2
    let sig :=
      if r < half then lo
      else if half < r then lo + 1
      else if lo % 2 = 0 then lo else lo + 1
    x.sign * ((sig * 2 ^ e : Nat) : Int)

/-- The sum `a + b` of two integer-valued numbers: the exact sum rounded to a double. -/
def numberAdd (a b : Int) : Int := roundToDouble (a + b)

/-- `StrWhiteSpaceChar`: white space and line terminators skipped by `parseInt`. -/
def isStrWhiteSpaceChar (c : Char) : Bool :=
  c.toNat ∈ [0x09, 0x0A, 0x0B, 0x0C, 0x0D, 0x20, 0xA0, 0x1680, 0x2000, 0x2001, 0x2002,
    0x2003, 0x2004, 0x2005, 0x2006, 0x2007, 0x2008, 0x2009, 0x200A, 0x2028, 0x2029,
    0x202F, 0x205F, 0x3000, 0xFEFF]

/-- The value of a character as a digit (`0-9`, `a-z`, `A-Z`), if it is one. -/
def digitValue (c : Char) : Option Nat :=
  if 48 ≤ c.toNat ∧ c.toNat ≤ 57 then some (c.toNat - 48)
  else if 97 ≤ c.toNat ∧ c.toNat ≤ 122 then some (c.toNat - 97 + 10)
  else if 65 ≤ c.toNat ∧ c.toNat ≤ 90 then some (c.toNat - 65 + 10)
  else none

/-- Is `c` a digit of radix `R`? -/
def isRadixDigit (R : Nat) (c : Char) : Bool :=
  match digitValue c with
  | some d => decide (d < R)
  | none => false

/-- The integer written by the digits `Z` in radix `R`. -/
def radixValue (R : Nat) (Z : List Char) : Nat :=
  Z.foldl (fun acc c => acc * R + (digitValue c).getD 0) 0

/-- After white space is trimmed: the sign and the rest of the text. -/
def parseSign : List Char → Int × List Char
  | '-' :: rest => (-1, rest)
  | '+' :: rest => (1, rest)
  | S => (1, S)

/-- With no radix argument: a `0x` or `0X` start selects radix 16 and is stripped,
otherwise the radix is 10. -/
def parseRadix : List Char → Nat × List Char
  | '0' :: 'x' :: rest => (16, rest)
  | '0' :: 'X' :: rest => (16, rest)
  | S => (10, S)

/-- `parseInt(string)` with no radix, on the characters of the string; `none` is `NaN`.
The result is kept as the exact integer `sign * mathInt` (the number the engine
returns is that integer rounded to a double, which keeps its sign; `-0` is `0`). -/
def parseIntChars (inputString : List Char) : Option Int :=
  let S := inputString.dropWhile isStrWhiteSpaceChar
  let (sign, S) := parseSign S
  let (R, S) := parseRadix S
  let Z := S.takeWhile (isRadixDigit R)
  if Z.isEmpty then none else some (sign * (radixValue R Z : Int))

/-- `parseInt(value)` where `value` is a string or `undefined` (`none`), which
`parseInt` first turns into the text `undefined`. -/
def parseInt (value : Option String) : Option Int :=
  match value with
  | none => parseIntChars "undefined".toList
  | some s => parseIntChars s.toList

/-- `x || 0` for a number `x`: `NaN` and `0` are falsy. -/
def orZero : Option Int → Int
  | none => 0
  | some n => if n = 0 then 0 else n

/-! ## Methods -/

/-- `initializeElements`: reads `data-variant-id` and `data-inventory` from the quantity
container (`none` when the container or the attribute is absent). -/
def initializeElements (card : ProductCard) (dataVariantId dataInventory : Option String) :
    ProductCard :=
  { card with
    variantId := dataVariantId
    maxInventory := orZero (parseInt dataInventory) }

/-- `classList.add(c)`. -/
def classListAdd (l : List String) (c : String) : List String :=
  if c ∈ l then l else l ++ [c]

/-- `classList.remove(c)`. -/
def classListRemove (l : List String) (c : String) : List String :=
  l.filter (fun x => x != c)

/-- `updateLoadingState(loading)`. -/
def updateLoadingState (card : ProductCard) (loading : Bool) : ProductCard :=
  { card with
    plusButton := { card.plusButton with disabled := loading }
    minusButton := { card.minusButton with disabled := loading }
    quantityInput := { card.quantityInput with disabled := loading }
    classList :=
      if loading then classListAdd card.classList "is-loading"
      else classListRemove card.classList "is-loading" }

/-- `showNotification(message, type)` (the default `type` is `success`; the widget only
calls it from `handleError`): appends the notification element and schedules its hiding
after 3000 ms. -/
def showNotification (message type : String) : List Effect :=
  [.appendNotification ("notification notification--" ++ type) message,
   .setTimeout .hideNotification 3000]

/-- `handleError(message)`. -/
def handleError (message : String) : List Effect :=
  .consoleError message :: showNotification message "error"

/-- `updateCartUI(cartData)`. -/
def updateCartUI (w : World) (cartData : CartData) : List Effect :=
  if w.cartCounter then
    [.setCounterText (numberToString cartData.item_count),
     .addCounterClass "cart-counter--updated",
     .setTimeout .removeCounterHighlight 300]
  else []

/-- `addToCart(quantity)`. -/
def addToCart (card : ProductCard) (quantity : Int) (w : World) :
    Except Thrown CartData × List Effect :=
  let request := Request.cartAdd card.variantId quantity
  match w.respond request with
  | .rejected => (.error .fetchRejected, [.fetch request])
  | .response false _ => (.error (.error "Błąd dodawania do koszyka"), [.fetch request])
  | .response true none => (.error .jsonRejected, [.fetch request])
  | .response true (some data) => (.ok data, .fetch request :: updateCartUI w data)

/-- `updateCartItemQuantity(quantity)`: returns `undefined` (`none`) without a request
when `dataset.itemKey` is falsy (absent or empty). -/
def updateCartItemQuantity (card : ProductCard) (quantity : Int) (w : World) :
    Except Thrown (Option CartData) × List Effect :=
  match card.quantityInput.itemKey with
  | none => (.ok none, [])
  | some itemKey =>
    if itemKey = "" then (.ok none, [])
    else
      let request := Request.cartChange itemKey quantity
      match w.respond request with
      | .rejected => (.error .fetchRejected, [.fetch request])
      | .response false _ => (.error (.error "Błąd aktualizacji koszyka"), [.fetch request])
      | .response true none => (.error .jsonRejected, [.fetch request])
      | .response true (some data) => (.ok (some data), .fetch request :: updateCartUI w data)

/-- `initializeCartState()`. -/
def initializeCartState (card : ProductCard) (w : World) : ProductCard × List Effect :=
  match w.respond .getCart with
  | .rejected =>
    (card, .fetch .getCart :: handleError "Błąd podczas inicjalizacji stanu koszyka")
  | .response false _ =>
    (card, .fetch .getCart :: handleError "Błąd podczas inicjalizacji stanu koszyka")
  | .response true none =>
    (card, .fetch .getCart :: handleError "Błąd podczas inicjalizacji stanu koszyka")
  | .response true (some cart) =>
    match cart.items.find? (fun item => some (numberToString item.variant_id) == card.variantId) with
    | some cartItem =>
      ({ card with
          quantityInput :=
            { card.quantityInput with
              value := numberToString cartItem.quantity
              itemKey := some cartItem.key }
          state := { card.state with quantity := cartItem.quantity } },
       [.fetch .getCart])
    | none => (card, [.fetch .getCart])

/-- The clamped target of `handleQuantityChange`:
`Math.max(0, Math.min(this.state.quantity + change, this.maxInventory))`. -/
def newQuantity (card : ProductCard) (change : Int) : Int :=
  max 0 (min (numberAdd card.state.quantity change) card.maxInventory)

/-- The request step of `handleQuantityChange` (the two branches inside `try`);
`newQuantity` is the local constant computed before. -/
def requestStep (card : ProductCard) (change newQuantity : Int) (w : World) :
    Except Thrown Unit × List Effect :=
  if change > 0 then
    match addToCart card 1 w with
    | (.ok _, effects) => (.ok (), effects)
    | (.error e, effects) => (.error e, effects)
  else
    match updateCartItemQuantity card newQuantity w with
    | (.ok _, effects) => (.ok (), effects)
    | (.error e, effects) => (.error e, effects)

/-- The two statements before `try`: `this.state.loading = true` and
`this.updateLoadingState(true)`. -/
def beginLoading (card : ProductCard) : ProductCard :=
  updateLoadingState { card with state := { card.state with loading := true } } true

/-- The `finally` block of `handleQuantityChange`. -/
def finallyBlock (card : ProductCard) : ProductCard :=
  updateLoadingState { card with state := { card.state with loading := false } } false

/-- `handleQuantityChange(change)`. -/
def handleQuantityChange (card : ProductCard) (change : Int) (w : World) :
    ProductCard × List Effect :=
  if card.state.loading then (card, [])
  else if newQuantity card change = card.state.quantity then (card, [])
  else
    let busy := beginLoading card
    match requestStep busy change (newQuantity card change) w with
    | (.ok _, effects) =>
      (finallyBlock
        { busy with
          state := { busy.state with quantity := newQuantity card change }
          quantityInput :=
            { busy.quantityInput with value := numberToString (newQuantity card change) } },
       effects)
    | (.error _, effects) =>
      (finallyBlock busy, effects ++ handleError "Błąd podczas aktualizacji koszyka")

/-- A finite sequence of calls of `handleQuantityChange`, each with the world that
answers it; the effects are concatenated in order. -/
def handleQuantityChanges (card : ProductCard) : List (Int × World) → ProductCard × List Effect
  | [] => (card, [])
  | (change, w) :: rest =>
    let first := handleQuantityChange card change w
    let others := handleQuantityChanges first.1 rest
    (others.1, first.2 ++ others.2)

/-- The request that the request step sends, if any: the add of one unit for a positive
change, otherwise the change of the line recorded in `dataset.itemKey` when there is
one. -/
def requestIssued (card : ProductCard) (change newQuantity : Int) : Option Request :=
  if change > 0 then some (.cartAdd card.variantId 1)
  else
    match card.quantityInput.itemKey with
    | none => none
    | some itemKey => if itemKey = "" then none else some (.cartChange itemKey newQuantity)

/-! ## Concrete widgets and worlds -/

/-- The element after the constructor (`loading` false, `quantity` 0) and
`initializeElements`, for markup whose controls are enabled, whose input shows `value`
and carries no item key, and whose element has no class. -/
def connected (dataVariantId dataInventory : Option String) (value : String) : ProductCard :=
  initializeElements
    { state := { loading := false, quantity := 0 }
      variantId := none
      maxInventory := 0
      quantityInput := { value := value, itemKey := none, disabled := false }
      plusButton := { disabled := false }
      minusButton := { disabled := false }
      classList := [] }
    dataVariantId dataInventory

/-- A remote cart that answers every request with a success status and the body
`data`; the document has a cart counter. -/
def answering (data : CartData) : World :=
  { respond := fun _ => .response true (some data), cartCounter := true }

/-- A remote cart that answers every request with a non-success status. -/
def refusing : World :=
  { respond := fun _ => .response false none, cartCounter := true }

/-- The card for variant `42` with inventory `5`, input showing `0`. -/
def sampleCard : ProductCard := connected (some "42") (some "5") "0"

/-- The sample card with one request in flight. -/
def sampleLoadingCard : ProductCard :=
  beginLoading sampleCard

/-- The sample card at quantity `3` with the item key `abc` recorded. -/
def sampleCardAtThree : ProductCard :=
  { sampleCard with
    state := { loading := false, quantity := 3 }
    quantityInput := { value := "3", itemKey := some "abc", disabled := false } }

/-- A card at quantity `2 ^ 53` with the item key `abc` recorded and inventory
`2 ^ 53 + 2` (both are doubles): the first quantity whose successor is not a double. -/
def sampleCardAtLimit : ProductCard :=
  { sampleCard with
    maxInventory := 9007199254740994
    state := { loading := false, quantity := 9007199254740992 }
    quantityInput :=
      { value := "9007199254740992", itemKey := some "abc", disabled := false } }

/-- The sample card whose markup renders the minus button disabled. -/
def sampleCardMinusDisabled : ProductCard :=
  { sampleCard with minusButton := { disabled := true } }

/-- A cart holding ten units of variant `42` under the key `abc`. -/
def cartWithTen : CartData :=
  { items := [{ variant_id := 42, quantity := 10, key := "abc" }], item_count := 10 }

/-- A cart holding two units of variant `42` under the key `abc`, after a line of
another variant. -/
def cartWithTwo : CartData :=
  { items := [{ variant_id := 7, quantity := 4, key := "xyz" },
              { variant_id := 42, quantity := 2, key := "abc" }],
    item_count := 6 }

/-- An empty cart. -/
def emptyCart : CartData := { items := [], item_count := 0 }

/-- The cart after one unit was added to an empty cart. -/
def cartWithOne : CartData :=
  { items := [{ variant_id := 42, quantity := 1, key := "abc" }], item_count := 1 }

/-- The sample card after mounting on `cartWithTen`: it adopted quantity `10`. -/
def sampleCardAdoptedTen : ProductCard :=
  (initializeCartState sampleCard (answering cartWithTen)).1

/-- The cart after one more unit was added to `cartWithTen`. -/
def cartWithEleven : CartData :=
  { items := [{ variant_id := 42, quantity := 11, key := "abc" }], item_count := 11 }

/-- The sample card, mounted on an empty cart, after one successful click on plus. -/
def sampleCardAfterPlus : ProductCard :=
  (handleQuantityChange (initializeCartState sampleCard (answering emptyCart)).1 1
    (answering cartWithOne)).1

/-! ## Basic facts about the helpers -/

/-- Rounding leaves an integer of magnitude at most `2 ^ 53` as it is. -/
theorem roundToDouble_of_le (x : Int) (h : x.natAbs ≤ 2 ^ 53) : roundToDouble x = x := by
  rcases Nat.lt_or_eq_of_le h with hlt | heq
  · unfold roundToDouble
    rw [if_pos hlt]
  · rcases Int.natAbs_eq x with hx | hx
    · rw [hx, heq]; decide
    · rw [hx, heq]; decide

/-- Adding one to a quantity between `0` and `2 ^ 53 - 1` is exact. -/
theorem numberAdd_one_of_safe (q : Int) (h0 : 0 ≤ q) (hsafe : q < 2 ^ 53) :
    numberAdd q 1 = q + 1 := by
  apply roundToDouble_of_le
  omega

/-- Subtracting one from a quantity between `0` and `2 ^ 53` is exact. -/
theorem numberAdd_neg_one_of_safe (q : Int) (h0 : 0 ≤ q) (hsafe : q ≤ 2 ^ 53) :
    numberAdd q (-1) = q - 1 := by
  apply roundToDouble_of_le
  omega

theorem requestsOf_updateCartUI (w : World) (data : CartData) :
    requestsOf (updateCartUI w data) = [] := by
  unfold updateCartUI
  split <;> rfl

theorem notificationsOf_updateCartUI (w : World) (data : CartData) :
    notificationsOf (updateCartUI w data) = [] := by
  unfold updateCartUI
  split <;> rfl

theorem requestsOf_append (xs ys : List Effect) :
    requestsOf (xs ++ ys) = requestsOf xs ++ requestsOf ys := by
  induction xs with
  | nil => rfl
  | cons x xs ih => cases x <;> simp [requestsOf, ih]

theorem notificationsOf_append (xs ys : List Effect) :
    notificationsOf (xs ++ ys) = notificationsOf xs ++ notificationsOf ys := by
  induction xs with
  | nil => rfl
  | cons x xs ih => cases x <;> simp [notificationsOf, ih]

theorem requestsOf_handleError (message : String) : requestsOf (handleError message) = [] := rfl

theorem notificationsOf_handleError (message : String) :
    notificationsOf (handleError message) = [("notification notification--error", message)] := rfl

/-- The request step sends exactly the request named by `requestIssued`. -/
theorem requestsOf_requestStep (card : ProductCard) (change nq : Int) (w : World) :
    requestsOf (requestStep card change nq w).2 = (requestIssued card change nq).toList := by
  unfold requestStep requestIssued
  by_cases hc : change > 0
  · simp only [hc, if_true, addToCart]
    cases w.respond (Request.cartAdd card.variantId 1) with
    | rejected => rfl
    | response ok json =>
      cases ok <;> cases json <;> simp [requestsOf, requestsOf_updateCartUI]
  · simp only [hc, if_false, updateCartItemQuantity]
    cases hk : card.quantityInput.itemKey with
    | none => rfl
    | some k =>
      by_cases he : k = ""
      · simp [he, requestsOf]
      · simp only [he, if_false]
        cases w.respond (Request.cartChange k nq) with
        | rejected => rfl
        | response ok json =>
          cases ok <;> cases json <;> simp [requestsOf, requestsOf_updateCartUI]

/-- The request step itself shows no notification. -/
theorem notificationsOf_requestStep (card : ProductCard) (change nq : Int) (w : World) :
    notificationsOf (requestStep card change nq w).2 = [] := by
  unfold requestStep
  by_cases hc : change > 0
  · simp only [hc, if_true, addToCart]
    cases w.respond (Request.cartAdd card.variantId 1) with
    | rejected => rfl
    | response ok json =>
      cases ok <;> cases json <;> simp [notificationsOf, notificationsOf_updateCartUI]
  · simp only [hc, if_false, updateCartItemQuantity]
    cases hk : card.quantityInput.itemKey with
    | none => rfl
    | some k =>
      by_cases he : k = ""
      · simp [he, notificationsOf]
      · simp only [he, if_false]
        cases w.respond (Request.cartChange k nq) with
        | rejected => rfl
        | response ok json =>
          cases ok <;> cases json <;> simp [notificationsOf, notificationsOf_updateCartUI]

/-- The request step completes without throwing exactly when the request it sends, if
any, succeeds. -/
theorem requestStep_ok_iff (card : ProductCard) (change nq : Int) (w : World) :
    (requestStep card change nq w).1 = .ok () ↔
      ∀ r, requestIssued card change nq = some r → (w.respond r).succeeded = true := by
  unfold requestStep requestIssued
  by_cases hc : change > 0
  · simp only [hc, if_true, addToCart, Option.some.injEq, forall_eq']
    cases w.respond (Request.cartAdd card.variantId 1) with
    | rejected => simp [FetchResult.succeeded]
    | response ok json =>
      cases ok <;> cases json <;> simp [FetchResult.succeeded]
  · simp only [hc, if_false, updateCartItemQuantity]
    cases hk : card.quantityInput.itemKey with
    | none => simp
    | some k =>
      by_cases he : k = ""
      · simp [he]
      · simp only [he, if_false, Option.some.injEq, forall_eq']
        cases w.respond (Request.cartChange k nq) with
        | rejected => simp [FetchResult.succeeded]
        | response ok json =>
          cases ok <;> cases json <;> simp [FetchResult.succeeded]

theorem requestIssued_beginLoading (card : ProductCard) (change nq : Int) :
    requestIssued (beginLoading card) change nq = requestIssued card change nq := rfl

/-- The shape of a call that gets past both early returns and whose request step
completes: the target is committed, then the `finally` block runs. -/
theorem handleQuantityChange_of_ok (card : ProductCard) (change : Int) (w : World)
    (hload : card.state.loading = false)
    (hne : newQuantity card change ≠ card.state.quantity)
    (hok : (requestStep (beginLoading card) change (newQuantity card change) w).1 = .ok ()) :
    handleQuantityChange card change w =
      (finallyBlock
        { beginLoading card with
          state := { (beginLoading card).state with quantity := newQuantity card change }
          quantityInput :=
            { (beginLoading card).quantityInput with
              value := numberToString (newQuantity card change) } },
       (requestStep (beginLoading card) change (newQuantity card change) w).2) := by
  unfold handleQuantityChange
  simp only [hload, hne, if_false, Bool.false_eq_true]
  generalize requestStep (beginLoading card) change (newQuantity card change) w = res at hok
  obtain ⟨r, es⟩ := res
  cases r with
  | ok u => rfl
  | error e => simp at hok

/-- The shape of a call that gets past both early returns and whose request step
throws: nothing is committed, the error is reported, then the `finally` block runs. -/
theorem handleQuantityChange_of_error (card : ProductCard) (change : Int) (w : World)
    (hload : card.state.loading = false)
    (hne : newQuantity card change ≠ card.state.quantity)
    (herr : (requestStep (beginLoading card) change (newQuantity card change) w).1 ≠ .ok ()) :
    handleQuantityChange card change w =
      (finallyBlock (beginLoading card),
       (requestStep (beginLoading card) change (newQuantity card change) w).2 ++
         handleError "Błąd podczas aktualizacji koszyka") := by
  unfold handleQuantityChange
  simp only [hload, hne, if_false, Bool.false_eq_true]
  generalize requestStep (beginLoading card) change (newQuantity card change) w = res at herr
  obtain ⟨r, es⟩ := res
  cases r with
  | ok u => exact absurd rfl herr
  | error e => rfl

theorem handleQuantityChange_of_loading (card : ProductCard) (change : Int) (w : World)
    (hload : card.state.loading = true) :
    handleQuantityChange card change w = (card, []) := by
  simp [handleQuantityChange, hload]

theorem handleQuantityChange_of_same (card : ProductCard) (change : Int) (w : World)
    (hsame : newQuantity card change = card.state.quantity) :
    handleQuantityChange card change w = (card, []) := by
  simp [handleQuantityChange, hsame]

/-! ## Claims about `handleQuantityChange` -/

/-- C1: with a non-negative `maxInventory`, whenever `handleQuantityChange(change)`
commits (it is not dropped, the target differs from the quantity, and the request step
completes without throwing), the committed `state.quantity` is the clamped target and
lies between `0` and `maxInventory`.  Proved for every integer `change`, so for `+1`
and `-1`. -/
theorem handleQuantityChange_commit_within_bounds (card : ProductCard) (change : Int)
    (w : World) (hmax : 0 ≤ card.maxInventory)
    (hload : card.state.loading = false)
    (hne : newQuantity card change ≠ card.state.quantity)
    (hok : (requestStep (beginLoading card) change (newQuantity card change) w).1 = .ok ()) :
    (handleQuantityChange card change w).1.state.quantity = newQuantity card change ∧
      0 ≤ (handleQuantityChange card change w).1.state.quantity ∧
      (handleQuantityChange card change w).1.state.quantity ≤ card.maxInventory := by
  rw [handleQuantityChange_of_ok card change w hload hne hok]
  refine ⟨rfl, ?_, ?_⟩
  · exact le_max_left 0 _
  · exact max_le hmax (min_le_right _ _)

/-- C4: while `state.loading` is true a call returns at once: no effect at all (so no
request) and the widget, with its quantity, loading flag and input value, is unchanged;
hence any finite sequence of calls made from a loading widget sends nothing and leaves
it unchanged. -/
theorem handleQuantityChange_dropped_while_loading (card : ProductCard)
    (hload : card.state.loading = true) :
    (∀ (change : Int) (w : World), handleQuantityChange card change w = (card, [])) ∧
      ∀ calls : List (Int × World), handleQuantityChanges card calls = (card, []) := by
  refine ⟨fun change w => handleQuantityChange_of_loading card change w hload, ?_⟩
  intro calls
  induction calls with
  | nil => rfl
  | cons c rest ih =>
    obtain ⟨change, w⟩ := c
    simp only [handleQuantityChanges, handleQuantityChange_of_loading card change w hload, ih,
      List.append_nil]

/-- C5: when the call starts with `loading` false and a request it sends fails (the
fetch rejects, the status is not a success, or the body cannot be read), the quantity
and the input value are as before the call and the call shows exactly one notification,
the error notification with the text of the update failure. -/
theorem handleQuantityChange_failed_request (card : ProductCard) (change : Int) (w : World)
    (r : Request) (hload : card.state.loading = false)
    (hsent : r ∈ requestsOf (handleQuantityChange card change w).2)
    (hfail : (w.respond r).succeeded = false) :
    (handleQuantityChange card change w).1.state.quantity = card.state.quantity ∧
      (handleQuantityChange card change w).1.quantityInput.value = card.quantityInput.value ∧
      notificationsOf (handleQuantityChange card change w).2 =
        [("notification notification--error", "Błąd podczas aktualizacji koszyka")] := by
  by_cases hsame : newQuantity card change = card.state.quantity
  · rw [handleQuantityChange_of_same card change w hsame] at hsent
    simp [requestsOf] at hsent
  · have herr : (requestStep (beginLoading card) change (newQuantity card change) w).1 ≠ .ok () := by
      intro hok
      rw [handleQuantityChange_of_ok card change w hload hsame hok,
        requestsOf_requestStep] at hsent
      have hr : requestIssued (beginLoading card) change (newQuantity card change) = some r := by
        simpa using hsent
      have := (requestStep_ok_iff _ _ _ _).1 hok r hr
      rw [hfail] at this
      exact Bool.noConfusion this
    rw [handleQuantityChange_of_error card change w hload hsame herr]
    refine ⟨rfl, rfl, ?_⟩
    rw [notificationsOf_append, notificationsOf_requestStep, notificationsOf_handleError]
    rfl

/-- C8, as stated, fails where the sum is no longer exact: at `loading` false, quantity
`2 ^ 53` and inventory `2 ^ 53 + 2` (so `0 ≤ quantity < maxInventory`), the sum
`quantity + 1` rounds back to `2 ^ 53`, the target equals the quantity, and
`handleQuantityChange(1)` returns with no request and the quantity unchanged. -/
theorem handleQuantityChange_plus_at_limit :
    sampleCardAtLimit.state.loading = false ∧
      0 ≤ sampleCardAtLimit.state.quantity ∧
      sampleCardAtLimit.state.quantity < sampleCardAtLimit.maxInventory ∧
      numberAdd sampleCardAtLimit.state.quantity 1 = sampleCardAtLimit.state.quantity ∧
      (handleQuantityChange sampleCardAtLimit 1 (answering cartWithOne)).2 = [] ∧
      (handleQuantityChange sampleCardAtLimit 1 (answering cartWithOne)).1.state.quantity
        = 9007199254740992 := by
  decide

/-- C8, amended: from `loading` false and `0 ≤ quantity < maxInventory` with
`quantity ≤ 2 ^ 53 - 1` (the largest safe integer), `handleQuantityChange(1)` sends
exactly one request, the add of one unit of `variantId`, and if that request succeeds
the quantity is `quantity + 1` and the input shows it. -/
theorem handleQuantityChange_plus (card : ProductCard) (w : World)
    (hload : card.state.loading = false)
    (h0 : 0 ≤ card.state.quantity) (hlt : card.state.quantity < card.maxInventory)
    (hsafe : card.state.quantity ≤ 2 ^ 53 - 1) :
    requestsOf (handleQuantityChange card 1 w).2 = [Request.cartAdd card.variantId 1] ∧
      ((w.respond (Request.cartAdd card.variantId 1)).succeeded = true →
        (handleQuantityChange card 1 w).1.state.quantity = card.state.quantity + 1 ∧
        (handleQuantityChange card 1 w).1.quantityInput.value =
          numberToString (card.state.quantity + 1)) := by
  have hnq : newQuantity card 1 = card.state.quantity + 1 := by
    unfold newQuantity
    rw [numberAdd_one_of_safe _ h0 (by omega), min_eq_left (by omega),
      max_eq_right (by omega)]
  have hne : newQuantity card 1 ≠ card.state.quantity := by omega
  have hiss : requestIssued (beginLoading card) 1 (newQuantity card 1) =
      some (Request.cartAdd card.variantId 1) := rfl
  constructor
  · by_cases hok : (requestStep (beginLoading card) 1 (newQuantity card 1) w).1 = .ok ()
    · rw [handleQuantityChange_of_ok card 1 w hload hne hok, requestsOf_requestStep, hiss]
      rfl
    · rw [handleQuantityChange_of_error card 1 w hload hne hok, requestsOf_append,
        requestsOf_requestStep, hiss, requestsOf_handleError]
      rfl
  · intro hsucc
    have hok : (requestStep (beginLoading card) 1 (newQuantity card 1) w).1 = .ok () := by
      rw [requestStep_ok_iff]
      intro r hr
      rw [hiss] at hr
      cases hr
      exact hsucc
    rw [handleQuantityChange_of_ok card 1 w hload hne hok, ← hnq]
    exact ⟨rfl, rfl⟩

/-- C9, as stated, fails where the sum is no longer exact: at `loading` false, quantity
`q = 2 ^ 53`, inventory `2 ^ 53 + 2` and item key `abc`, `handleQuantityChange(1)` ends
without a failure (it has no effect: `q + 1` rounds back to `q`), and the
`handleQuantityChange(-1)` that follows sends the change to `2 ^ 53 - 1`, which
succeeds, and leaves the quantity and the input at `2 ^ 53 - 1`, not at `q`. -/
theorem handleQuantityChange_plus_minus_at_limit :
    sampleCardAtLimit.state.loading = false ∧
      0 ≤ sampleCardAtLimit.state.quantity ∧
      sampleCardAtLimit.state.quantity < sampleCardAtLimit.maxInventory ∧
      handleQuantityChange sampleCardAtLimit 1 (answering cartWithOne)
        = (sampleCardAtLimit, []) ∧
      requestsOf (handleQuantityChange
          (handleQuantityChange sampleCardAtLimit 1 (answering cartWithOne)).1 (-1)
          (answering cartWithOne)).2 = [Request.cartChange "abc" 9007199254740991] ∧
      ((answering cartWithOne).respond
          (Request.cartChange "abc" 9007199254740991)).succeeded = true ∧
      (handleQuantityChange
          (handleQuantityChange sampleCardAtLimit 1 (answering cartWithOne)).1 (-1)
          (answering cartWithOne)).1.state.quantity = 9007199254740991 ∧
      (handleQuantityChange
          (handleQuantityChange sampleCardAtLimit 1 (answering cartWithOne)).1 (-1)
          (answering cartWithOne)).1.quantityInput.value = "9007199254740991" := by
  decide

/-- C9, amended: from `loading` false and `0 ≤ q < maxInventory` with `q ≤ 2 ^ 53 - 1`
(the largest safe integer), a `handleQuantityChange(1)` whose requests all succeed
followed by a `handleQuantityChange(-1)` whose requests all succeed leaves
`state.quantity` equal to `q` and the input showing `q`. -/
theorem handleQuantityChange_plus_minus_roundtrip (card : ProductCard) (w1 w2 : World)
    (hload : card.state.loading = false)
    (h0 : 0 ≤ card.state.quantity) (hlt : card.state.quantity < card.maxInventory)
    (hsafe : card.state.quantity ≤ 2 ^ 53 - 1)
    (hok1 : ∀ r ∈ requestsOf (handleQuantityChange card 1 w1).2,
      (w1.respond r).succeeded = true)
    (hok2 : ∀ r ∈ requestsOf (handleQuantityChange (handleQuantityChange card 1 w1).1 (-1) w2).2,
      (w2.respond r).succeeded = true) :
    (handleQuantityChange (handleQuantityChange card 1 w1).1 (-1) w2).1.state.quantity =
        card.state.quantity ∧
      (handleQuantityChange (handleQuantityChange card 1 w1).1 (-1) w2).1.quantityInput.value =
        numberToString card.state.quantity := by
  have hnq : newQuantity card 1 = card.state.quantity + 1 := by
    unfold newQuantity
    rw [numberAdd_one_of_safe _ h0 (by omega), min_eq_left (by omega),
      max_eq_right (by omega)]
  have hne : newQuantity card 1 ≠ card.state.quantity := by omega
  have hstep1 : (requestStep (beginLoading card) 1 (newQuantity card 1) w1).1 = .ok () := by
    by_contra herr
    rw [handleQuantityChange_of_error card 1 w1 hload hne herr, requestsOf_append,
      requestsOf_requestStep, requestsOf_handleError] at hok1
    apply herr
    rw [requestStep_ok_iff]
    intro r hr
    apply hok1
    simp [hr]
  rw [handleQuantityChange_of_ok card 1 w1 hload hne hstep1] at hok2 ⊢
  generalize hmid : (finallyBlock
        { beginLoading card with
          state := { (beginLoading card).state with quantity := newQuantity card 1 }
          quantityInput :=
            { (beginLoading card).quantityInput with
              value := numberToString (newQuantity card 1) } }) = mid at hok2 ⊢
  have hmq : mid.state.quantity = card.state.quantity + 1 := by rw [← hmid, ← hnq]; rfl
  have hmm : mid.maxInventory = card.maxInventory := by rw [← hmid]; rfl
  have hml : mid.state.loading = false := by rw [← hmid]; rfl
  have hnq2 : newQuantity mid (-1) = card.state.quantity := by
    unfold newQuantity
    rw [hmq, hmm, numberAdd_neg_one_of_safe _ (by omega) (by omega),
      min_eq_left (by omega), max_eq_right (by omega)]
    omega
  have hne2 : newQuantity mid (-1) ≠ mid.state.quantity := by omega
  have hstep2 : (requestStep (beginLoading mid) (-1) (newQuantity mid (-1)) w2).1 = .ok () := by
    by_contra herr
    rw [handleQuantityChange_of_error mid (-1) w2 hml hne2 herr, requestsOf_append,
      requestsOf_requestStep, requestsOf_handleError] at hok2
    apply herr
    rw [requestStep_ok_iff]
    intro r hr
    apply hok2
    simp [hr]
  rw [handleQuantityChange_of_ok mid (-1) w2 hml hne2 hstep2, ← hnq2]
  exact ⟨rfl, rfl⟩

/-- C6, as stated, fails on the early return: the sample card with `loading` false whose
minus button is rendered disabled, at quantity `0`, takes `handleQuantityChange(-1)`
as a no-op, and the minus button is still disabled when the call finishes. -/
theorem handleQuantityChange_noop_leaves_minus_disabled :
    sampleCardMinusDisabled.state.loading = false ∧
      (handleQuantityChange sampleCardMinusDisabled (-1) (answering emptyCart)).1.minusButton.disabled
        = true := by
  decide

/-- C6, amended: a call that starts with `loading` false and whose target differs from
the quantity ends with `loading` false, the three controls enabled and the class
`is-loading` absent, whether the request succeeded, failed or was never sent; a call
whose target equals the quantity returns at once and leaves the widget, so `loading`
(false) and the controls, exactly as they were, with no effect. -/
theorem handleQuantityChange_controls_after_call (card : ProductCard) (change : Int)
    (w : World) (hload : card.state.loading = false) :
    (newQuantity card change ≠ card.state.quantity →
        (handleQuantityChange card change w).1.state.loading = false ∧
        (handleQuantityChange card change w).1.plusButton.disabled = false ∧
        (handleQuantityChange card change w).1.minusButton.disabled = false ∧
        (handleQuantityChange card change w).1.quantityInput.disabled = false ∧
        "is-loading" ∉ (handleQuantityChange card change w).1.classList) ∧
      (newQuantity card change = card.state.quantity →
        handleQuantityChange card change w = (card, [])) := by
  refine ⟨fun hne => ?_, fun hsame => handleQuantityChange_of_same card change w hsame⟩
  by_cases hok : (requestStep (beginLoading card) change (newQuantity card change) w).1 = .ok ()
  · rw [handleQuantityChange_of_ok card change w hload hne hok]
    refine ⟨rfl, rfl, rfl, rfl, ?_⟩
    simp [finallyBlock, updateLoadingState, classListRemove]
  · rw [handleQuantityChange_of_error card change w hload hne hok]
    refine ⟨rfl, rfl, rfl, rfl, ?_⟩
    simp [finallyBlock, updateLoadingState, classListRemove]

/-! ## Claims about `initializeCartState` -/

/-- C7: after a successful `GET /cart.js`, if the cart has a line whose `variant_id`, as
a string, is the `variantId` of the widget, the first such line in list order gives
`state.quantity`, the input value and the item key; if no line matches, the widget is
unchanged (so are its quantity and item key). -/
theorem initializeCartState_adopts_first_match (card : ProductCard) (w : World)
    (cart : CartData) (hresp : w.respond .getCart = .response true (some cart)) :
    (∀ (before : List CartLine) (line : CartLine) (after : List CartLine),
        cart.items = before ++ line :: after →
        (∀ l ∈ before, card.variantId ≠ some (numberToString l.variant_id)) →
        card.variantId = some (numberToString line.variant_id) →
        (initializeCartState card w).1.state.quantity = line.quantity ∧
        (initializeCartState card w).1.quantityInput.value = numberToString line.quantity ∧
        (initializeCartState card w).1.quantityInput.itemKey = some line.key) ∧
      ((∀ l ∈ cart.items, card.variantId ≠ some (numberToString l.variant_id)) →
        (initializeCartState card w).1 = card) := by
  constructor
  · intro before line after hitems hbefore hline
    have hfind : cart.items.find?
        (fun item => some (numberToString item.variant_id) == card.variantId) = some line := by
      rw [hitems, List.find?_append]
      have hnone : before.find?
          (fun item => some (numberToString item.variant_id) == card.variantId) = none := by
        rw [List.find?_eq_none]
        intro l hl
        simp only [beq_iff_eq]
        exact fun h => hbefore l hl h.symm
      rw [hnone]
      simp [List.find?_cons, hline]
    simp [initializeCartState, hresp, hfind]
  · intro hnone
    have hfind : cart.items.find?
        (fun item => some (numberToString item.variant_id) == card.variantId) = none := by
      rw [List.find?_eq_none]
      intro l hl
      simp only [beq_iff_eq]
      exact fun h => hnone l hl h.symm
    simp only [initializeCartState, hresp, hfind]

/-! ## `parseInt` on decimal texts -/

theorem digitChar_toNat (m : Nat) (h : m < 10) : (Nat.digitChar m).toNat = 48 + m := by
  interval_cases m <;> rfl

theorem digitValue_of_decimal (c : Char) (h : 48 ≤ c.toNat ∧ c.toNat ≤ 57) :
    digitValue c = some (c.toNat - 48) := by
  simp [digitValue, h]

theorem toDigitsCore_spec (fuel : Nat) : ∀ (n : Nat) (ds : List Char), n < fuel →
    ∃ D : List Char, Nat.toDigitsCore 10 fuel n ds = D ++ ds ∧ D ≠ [] ∧
      (∀ c ∈ D, 48 ≤ c.toNat ∧ c.toNat ≤ 57) ∧
      ∀ a : Nat, D.foldl (fun acc c => acc * 10 + (digitValue c).getD 0) a
        = a * 10 ^ D.length + n := by
  induction fuel with
  | zero => intro n ds h; omega
  | succ fuel ih =>
    intro n ds hn
    have hd : (Nat.digitChar (n % 10)).toNat = 48 + n % 10 :=
      digitChar_toNat _ (Nat.mod_lt _ (by decide))
    have hdec : 48 ≤ (Nat.digitChar (n % 10)).toNat ∧ (Nat.digitChar (n % 10)).toNat ≤ 57 := by
      have := Nat.mod_lt n (show 0 < 10 by decide)
      omega
    have hval : (digitValue (Nat.digitChar (n % 10))).getD 0 = n % 10 := by
      rw [digitValue_of_decimal _ hdec, hd]; simp
    by_cases h0 : n / 10 = 0
    · refine ⟨[Nat.digitChar (n % 10)], ?_, by simp, ?_, ?_⟩
      · simp [Nat.toDigitsCore, h0]
      · intro c hc
        simp only [List.mem_singleton] at hc
        subst hc; exact hdec
      · intro a
        simp only [List.foldl_cons, List.foldl_nil, hval, List.length_singleton, pow_one]
        have : n % 10 = n := by omega
        omega
    · obtain ⟨D, hD, hne, hall, hfold⟩ := ih (n / 10) (Nat.digitChar (n % 10) :: ds) (by omega)
      refine ⟨D ++ [Nat.digitChar (n % 10)], ?_, by simp, ?_, ?_⟩
      · simp [Nat.toDigitsCore, h0, hD]
      · intro c hc
        rcases List.mem_append.1 hc with h | h
        · exact hall c h
        · simp only [List.mem_singleton] at h
          subst h; exact hdec
      · intro a
        rw [List.foldl_append, hfold a]
        simp only [List.foldl_cons, List.foldl_nil, hval, List.length_append,
          List.length_singleton, pow_succ]
        have := Nat.div_add_mod n 10
        nlinarith [this]

theorem isStrWhiteSpaceChar_of_decimal (c : Char) (h : 48 ≤ c.toNat ∧ c.toNat ≤ 57) :
    isStrWhiteSpaceChar c = false := by
  simp only [isStrWhiteSpaceChar, decide_eq_false_iff_not]
  intro hmem
  simp only [List.mem_cons, List.mem_singleton, List.not_mem_nil, or_false] at hmem
  omega

theorem isRadixDigit_ten_of_decimal (c : Char) (h : 48 ≤ c.toNat ∧ c.toNat ≤ 57) :
    isRadixDigit 10 c = true := by
  simp only [isRadixDigit, digitValue_of_decimal c h, decide_eq_true_eq]
  omega

theorem parseSign_of_decimal (c : Char) (t : List Char) (h : 48 ≤ c.toNat ∧ c.toNat ≤ 57) :
    parseSign (c :: t) = (1, c :: t) := by
  unfold parseSign
  split
  · rename_i heq
    simp only [List.cons.injEq] at heq
    rw [heq.1] at h
    simp at h
  · rename_i heq
    simp only [List.cons.injEq] at heq
    rw [heq.1] at h
    simp at h
  · rfl

theorem parseRadix_of_decimals (D : List Char) (h : ∀ c ∈ D, 48 ≤ c.toNat ∧ c.toNat ≤ 57) :
    parseRadix D = (10, D) := by
  unfold parseRadix
  split
  · rename_i rest
    have := h 'x' (by simp)
    simp at this
  · rename_i rest
    have := h 'X' (by simp)
    simp at this
  · rfl

theorem parseMagnitude_of_decimals (D : List Char) (hne : D ≠ [])
    (h : ∀ c ∈ D, 48 ≤ c.toNat ∧ c.toNat ≤ 57) (sign : Int) :
    (match parseRadix D with
      | (R, S) =>
        if (S.takeWhile (isRadixDigit R)).isEmpty then none
        else some (sign * (radixValue R (S.takeWhile (isRadixDigit R)) : Int)))
      = some (sign * (radixValue 10 D : Int)) := by
  rw [parseRadix_of_decimals D h]
  have htake : D.takeWhile (isRadixDigit 10) = D := by
    rw [List.takeWhile_eq_self_iff]
    exact fun c hc => isRadixDigit_ten_of_decimal c (h c hc)
  simp only [htake]
  cases D with
  | nil => exact absurd rfl hne
  | cons c t => simp

theorem parseIntChars_of_decimals (D : List Char) (hne : D ≠ [])
    (h : ∀ c ∈ D, 48 ≤ c.toNat ∧ c.toNat ≤ 57) :
    parseIntChars D = some (radixValue 10 D : Int) ∧
      parseIntChars ('-' :: D) = some (-(radixValue 10 D : Int)) := by
  constructor
  · cases D with
    | nil => exact absurd rfl hne
    | cons c t =>
      have hc := h c (by simp)
      unfold parseIntChars
      simp only [List.dropWhile_cons, isStrWhiteSpaceChar_of_decimal c hc, Bool.false_eq_true,
        if_false, parseSign_of_decimal c t hc]
      have := parseMagnitude_of_decimals (c :: t) hne h 1
      simpa using this
  · unfold parseIntChars
    have hw : isStrWhiteSpaceChar '-' = false := by decide
    simp only [List.dropWhile_cons, hw, Bool.false_eq_true, if_false, parseSign]
    have := parseMagnitude_of_decimals D hne h (-1)
    simpa using this


theorem parseInt_numberToString (z : Int) : parseInt (some (numberToString z)) = some z := by
  cases z with
  | ofNat n =>
    obtain ⟨D, hD, hne, hall, hfold⟩ := toDigitsCore_spec (n + 1) n [] (Nat.lt_succ_self n)
    have htext : (numberToString (Int.ofNat n)).toList = D := by
      show (Nat.repr n).toList = D
      simp [Nat.repr, List.asString, Nat.toDigits, hD]
    have hval : radixValue 10 D = n := by
      have := hfold 0
      simpa [radixValue] using this
    simp only [parseInt, htext, (parseIntChars_of_decimals D hne hall).1, hval]
    rfl
  | negSucc n =>
    obtain ⟨D, hD, hne, hall, hfold⟩ :=
      toDigitsCore_spec (n + 1 + 1) (n + 1) [] (Nat.lt_succ_self _)
    have htext : (numberToString (Int.negSucc n)).toList = '-' :: D := by
      show ("-" ++ Nat.repr (n + 1)).toList = '-' :: D
      simp [Nat.repr, List.asString, Nat.toDigits, hD]
    have hval : radixValue 10 D = n + 1 := by
      have := hfold 0
      simpa [radixValue] using this
    simp only [parseInt, htext, (parseIntChars_of_decimals D hne hall).2, hval]
    rfl

theorem parseIntChars_neg_only_after_minus (text : List Char) (z : Int)
    (hz : parseIntChars text = some z) (hneg : z < 0) :
    ∃ rest, text.dropWhile isStrWhiteSpaceChar = '-' :: rest := by
  by_contra hno
  have hsign : (parseSign (text.dropWhile isStrWhiteSpaceChar)).1 = 1 := by
    unfold parseSign
    split
    · rename_i rest heq
      exact absurd ⟨rest, heq⟩ hno
    · rfl
    · rfl
  unfold parseIntChars at hz
  simp only at hz
  split at hz
  · exact Option.noConfusion hz
  · injection hz with hz
    rw [hsign] at hz
    have : (0 : Int) ≤ z := by
      rw [← hz]
      positivity
    omega

theorem orZero_some (n : Int) : orZero (some n) = n := by
  show (if n = 0 then 0 else n) = n
  split_ifs with h
  · exact h.symm
  · rfl

/-! ## Claims about `initializeElements` -/

/-- C10, as stated, fails on a negative integer text: with `data-inventory` equal to
`-5`, `initializeElements` computes `maxInventory = -5`, which is negative. -/
theorem initializeElements_negative_inventory :
    (initializeElements sampleCard (some "42") (some "-5")).maxInventory = -5 ∧
      (initializeElements sampleCard (some "42") (some "-5")).maxInventory < 0 := by
  decide

/-- C10, amended: the `maxInventory` computed by `initializeElements` is `0` when
`data-inventory` is absent, empty or not numeric (`parseInt` gives `NaN`); it is the
integer `z` itself when the value is the decimal text of an integer `z` (numbers being
exact integers, as they are in the safe-integer range), hence non-negative exactly when
`z` is; and it is negative only for a text whose first character after white space is
a minus sign. -/
theorem initializeElements_maxInventory (card : ProductCard) (dataVariantId : Option String) :
    (initializeElements card dataVariantId none).maxInventory = 0 ∧
      (initializeElements card dataVariantId (some "")).maxInventory = 0 ∧
      (∀ s : String, parseInt (some s) = none →
        (initializeElements card dataVariantId (some s)).maxInventory = 0) ∧
      (∀ z : Int,
        (initializeElements card dataVariantId (some (numberToString z))).maxInventory = z ∧
        (0 ≤ (initializeElements card dataVariantId (some (numberToString z))).maxInventory
          ↔ 0 ≤ z)) ∧
      (∀ s : String, (initializeElements card dataVariantId (some s)).maxInventory < 0 →
        ∃ rest, s.toList.dropWhile isStrWhiteSpaceChar = '-' :: rest) := by
  have hz : ∀ z : Int,
      (initializeElements card dataVariantId (some (numberToString z))).maxInventory = z := by
    intro z
    show orZero (parseInt (some (numberToString z))) = z
    rw [parseInt_numberToString, orZero_some]
  refine ⟨?_, ?_, ?_, ?_, ?_⟩
  · show orZero (parseInt none) = 0
    decide
  · show orZero (parseInt (some "")) = 0
    decide
  · intro s hs
    show orZero (parseInt (some s)) = 0
    rw [hs]
    rfl
  · intro z
    exact ⟨hz z, by rw [hz z]⟩
  · intro s hneg
    change orZero (parseIntChars s.toList) < 0 at hneg
    cases hp : parseIntChars s.toList with
    | none => rw [hp] at hneg; exact absurd hneg (by decide)
    | some v =>
      rw [hp, orZero_some] at hneg
      exact parseIntChars_neg_only_after_minus s.toList v hp hneg

/-- The amended C10 at concrete values: the texts `7` and `-5` give `7` and `-5`, the
text `abc` gives `0`, and the negative result of `-5` comes with a leading minus. -/
theorem initializeElements_maxInventory_witness :
    (initializeElements sampleCard (some "42") (some (numberToString 7))).maxInventory = 7 ∧
      (initializeElements sampleCard (some "42") (some (numberToString (-5)))).maxInventory = -5 ∧
      (initializeElements sampleCard (some "42") (some "abc")).maxInventory = 0 ∧
      ∃ rest, "-5".toList.dropWhile isStrWhiteSpaceChar = '-' :: rest :=
  ⟨((initializeElements_maxInventory sampleCard (some "42")).2.2.2.1 7).1,
   ((initializeElements_maxInventory sampleCard (some "42")).2.2.2.1 (-5)).1,
   (initializeElements_maxInventory sampleCard (some "42")).2.2.1 "abc" (by decide),
   (initializeElements_maxInventory sampleCard (some "42")).2.2.2.2 "-5" (by decide)⟩

/-! ## What holds of the two departures below on the states that keep the invariant -/

/-- Inside the invariant `0 ≤ quantity ≤ maxInventory`, for a safe-integer quantity, a
change of `+1` or `-1` that would leave the range is a no-op: no effect and the widget
unchanged. -/
theorem handleQuantityChange_noop_inside_invariant (card : ProductCard) (change : Int)
    (w : World) (hchange : change = 1 ∨ change = -1)
    (h0 : 0 ≤ card.state.quantity) (hmax : card.state.quantity ≤ card.maxInventory)
    (hsafe : card.state.quantity ≤ 2 ^ 53 - 1)
    (hout : card.state.quantity + change < 0 ∨ card.state.quantity + change > card.maxInventory) :
    handleQuantityChange card change w = (card, []) := by
  apply handleQuantityChange_of_same
  unfold newQuantity
  rcases hchange with rfl | rfl
  · rw [numberAdd_one_of_safe _ h0 (by omega), min_eq_right (by omega),
      max_eq_right (by omega)]
    omega
  · rw [numberAdd_neg_one_of_safe _ h0 (by omega), min_eq_left (by omega),
      max_eq_left (by omega)]
    omega

/-- When the request step sends a request (a positive change, or a recorded non-empty
item key), the quantity changes only if exactly that one request was sent and it
succeeded. -/
theorem handleQuantityChange_commit_needs_success (card : ProductCard) (change : Int)
    (w : World) (r : Request)
    (hissued : requestIssued card change (newQuantity card change) = some r)
    (hchanged : (handleQuantityChange card change w).1.state.quantity ≠ card.state.quantity) :
    requestsOf (handleQuantityChange card change w).2 = [r] ∧
      (w.respond r).succeeded = true := by
  cases hload : card.state.loading with
  | true =>
    rw [handleQuantityChange_of_loading card change w hload] at hchanged
    exact absurd rfl hchanged
  | false =>
    by_cases hsame : newQuantity card change = card.state.quantity
    · rw [handleQuantityChange_of_same card change w hsame] at hchanged
      exact absurd rfl hchanged
    · by_cases hok : (requestStep (beginLoading card) change (newQuantity card change) w).1
          = .ok ()
      · rw [handleQuantityChange_of_ok card change w hload hsame hok, requestsOf_requestStep,
          requestIssued_beginLoading, hissued]
        exact ⟨rfl, (requestStep_ok_iff _ _ _ _).1 hok r hissued⟩
      · rw [handleQuantityChange_of_error card change w hload hsame hok] at hchanged
        exact absurd rfl hchanged

/-! ## The code at the inputs where it departs from the specification -/

/-- C2 at a quantity adopted from the remote cart: the sample card (inventory `5`)
mounted on a cart holding ten units adopts quantity `10`; then `handleQuantityChange(1)`
would increment above `maxInventory`, yet it sends the add request for one unit and, on
success, sets the quantity and the input to `5`. -/
theorem handleQuantityChange_plus_above_inventory :
    sampleCardAdoptedTen.state = { loading := false, quantity := 10 } ∧
      sampleCardAdoptedTen.maxInventory = 5 ∧
      sampleCardAdoptedTen.state.quantity + 1 > sampleCardAdoptedTen.maxInventory ∧
      requestsOf (handleQuantityChange sampleCardAdoptedTen 1 (answering cartWithEleven)).2
        = [Request.cartAdd (some "42") 1] ∧
      (handleQuantityChange sampleCardAdoptedTen 1 (answering cartWithEleven)).1.state.quantity
        = 5 ∧
      (handleQuantityChange sampleCardAdoptedTen 1 (answering cartWithEleven)).1.quantityInput.value
        = "5" := by
  decide

/-- C3 at a decrement with no recorded item key: the sample card mounted on an empty
cart and incremented once has quantity `1` and still no item key; then
`handleQuantityChange(-1)` sends no request (it has no effect on the outside at all,
even facing a cart that would refuse), yet the quantity and the input become `0`. -/
theorem handleQuantityChange_minus_without_item_key :
    sampleCardAfterPlus.state = { loading := false, quantity := 1 } ∧
      sampleCardAfterPlus.quantityInput.itemKey = none ∧
      (handleQuantityChange sampleCardAfterPlus (-1) refusing).2 = [] ∧
      (handleQuantityChange sampleCardAfterPlus (-1) refusing).1.state.quantity = 0 ∧
      (handleQuantityChange sampleCardAfterPlus (-1) refusing).1.quantityInput.value = "0" := by
  decide

/-! ## The theorems at concrete widgets -/

/-- C1 at the sample card: one click on plus with an accepting cart commits `1`. -/
theorem handleQuantityChange_commit_within_bounds_witness :
    (0 ≤ sampleCard.maxInventory ∧ sampleCard.state.loading = false ∧
        newQuantity sampleCard 1 ≠ sampleCard.state.quantity ∧
        (requestStep (beginLoading sampleCard) 1 (newQuantity sampleCard 1)
          (answering cartWithOne)).1 = .ok ()) ∧
      ((handleQuantityChange sampleCard 1 (answering cartWithOne)).1.state.quantity = 1 ∧
        0 ≤ (handleQuantityChange sampleCard 1 (answering cartWithOne)).1.state.quantity ∧
        (handleQuantityChange sampleCard 1 (answering cartWithOne)).1.state.quantity ≤ 5) :=
  ⟨⟨by decide, by decide, by decide, rfl⟩,
   handleQuantityChange_commit_within_bounds sampleCard 1 (answering cartWithOne)
     (by decide) (by decide) (by decide) rfl⟩

/-- C4 at the sample card with a request in flight: a click on plus and a sequence of
three clicks are dropped. -/
theorem handleQuantityChange_dropped_while_loading_witness :
    sampleLoadingCard.state.loading = true ∧
      handleQuantityChange sampleLoadingCard 1 (answering cartWithOne) = (sampleLoadingCard, []) ∧
      handleQuantityChanges sampleLoadingCard
          [(1, answering cartWithOne), (1, refusing), (-1, answering emptyCart)]
        = (sampleLoadingCard, []) :=
  ⟨by decide,
   (handleQuantityChange_dropped_while_loading sampleLoadingCard (by decide)).1 1 _,
   (handleQuantityChange_dropped_while_loading sampleLoadingCard (by decide)).2 _⟩

/-- C5 at quantity `3` with item key `abc`: a click on minus sends the change to quantity
`2`; the cart refuses; the quantity and the input stay at `3` and the one notification
is the error. -/
theorem handleQuantityChange_failed_request_witness :
    (sampleCardAtThree.state.loading = false ∧
        Request.cartChange "abc" 2 ∈
          requestsOf (handleQuantityChange sampleCardAtThree (-1) refusing).2 ∧
        (refusing.respond (Request.cartChange "abc" 2)).succeeded = false) ∧
      ((handleQuantityChange sampleCardAtThree (-1) refusing).1.state.quantity = 3 ∧
        (handleQuantityChange sampleCardAtThree (-1) refusing).1.quantityInput.value = "3" ∧
        notificationsOf (handleQuantityChange sampleCardAtThree (-1) refusing).2 =
          [("notification notification--error", "Błąd podczas aktualizacji koszyka")]) :=
  ⟨⟨by decide, by decide, by decide⟩,
   handleQuantityChange_failed_request sampleCardAtThree (-1) refusing
     (Request.cartChange "abc" 2) (by decide) (by decide) (by decide)⟩

/-- C6, amended, at the sample card: after a successful click on plus the controls are
enabled and `loading` is false. -/
theorem handleQuantityChange_controls_after_call_witness :
    (sampleCard.state.loading = false ∧ newQuantity sampleCard 1 ≠ sampleCard.state.quantity) ∧
      ((handleQuantityChange sampleCard 1 (answering cartWithOne)).1.state.loading = false ∧
        (handleQuantityChange sampleCard 1 (answering cartWithOne)).1.plusButton.disabled = false ∧
        (handleQuantityChange sampleCard 1 (answering cartWithOne)).1.minusButton.disabled = false ∧
        (handleQuantityChange sampleCard 1 (answering cartWithOne)).1.quantityInput.disabled = false ∧
        "is-loading" ∉ (handleQuantityChange sampleCard 1 (answering cartWithOne)).1.classList) :=
  ⟨⟨by decide, by decide⟩,
   (handleQuantityChange_controls_after_call sampleCard 1 (answering cartWithOne)
     (by decide)).1 (by decide)⟩

/-- C7 at the sample card and a cart whose second line is variant `42` with quantity `2`
and key `abc`: the widget adopts quantity `2`, shows `2` and records `abc`. -/
theorem initializeCartState_adopts_first_match_witness :
    (answering cartWithTwo).respond .getCart = .response true (some cartWithTwo) ∧
      ((initializeCartState sampleCard (answering cartWithTwo)).1.state.quantity = 2 ∧
        (initializeCartState sampleCard (answering cartWithTwo)).1.quantityInput.value = "2" ∧
        (initializeCartState sampleCard (answering cartWithTwo)).1.quantityInput.itemKey
          = some "abc") :=
  ⟨rfl,
   (initializeCartState_adopts_first_match sampleCard (answering cartWithTwo) cartWithTwo rfl).1
     [{ variant_id := 7, quantity := 4, key := "xyz" }]
     { variant_id := 42, quantity := 2, key := "abc" } [] rfl (by decide) (by decide)⟩

/-- C8, amended, at the sample card (inventory `5`, quantity `0`): plus sends the add of
one unit of variant `42`, and with an accepting cart the quantity and the input become
`1`. -/
theorem handleQuantityChange_plus_witness :
    (sampleCard.state.loading = false ∧ 0 ≤ sampleCard.state.quantity ∧
        sampleCard.state.quantity < sampleCard.maxInventory ∧
        sampleCard.state.quantity ≤ 2 ^ 53 - 1) ∧
      requestsOf (handleQuantityChange sampleCard 1 (answering cartWithOne)).2
        = [Request.cartAdd (some "42") 1] ∧
      (handleQuantityChange sampleCard 1 (answering cartWithOne)).1.state.quantity = 1 ∧
      (handleQuantityChange sampleCard 1 (answering cartWithOne)).1.quantityInput.value = "1" :=
  ⟨⟨by decide, by decide, by decide, by decide⟩,
   (handleQuantityChange_plus sampleCard (answering cartWithOne)
     (by decide) (by decide) (by decide) (by decide)).1,
   (handleQuantityChange_plus sampleCard (answering cartWithOne)
     (by decide) (by decide) (by decide) (by decide)).2 rfl⟩

/-- C9, amended, at quantity `3` with item key `abc`: plus then minus, both accepted by
the cart, give quantity `3` and the input showing `3` again. -/
theorem handleQuantityChange_plus_minus_roundtrip_witness :
    (sampleCardAtThree.state.loading = false ∧ 0 ≤ sampleCardAtThree.state.quantity ∧
        sampleCardAtThree.state.quantity < sampleCardAtThree.maxInventory ∧
        sampleCardAtThree.state.quantity ≤ 2 ^ 53 - 1) ∧
      requestsOf (handleQuantityChange
          (handleQuantityChange sampleCardAtThree 1 (answering cartWithOne)).1 (-1)
          (answering emptyCart)).2 = [Request.cartChange "abc" 3] ∧
      (handleQuantityChange
          (handleQuantityChange sampleCardAtThree 1 (answering cartWithOne)).1 (-1)
          (answering emptyCart)).1.state.quantity = 3 ∧
      (handleQuantityChange
          (handleQuantityChange sampleCardAtThree 1 (answering cartWithOne)).1 (-1)
          (answering emptyCart)).1.quantityInput.value = "3" :=
  ⟨⟨by decide, by decide, by decide, by decide⟩, by decide,
   handleQuantityChange_plus_minus_roundtrip sampleCardAtThree (answering cartWithOne)
     (answering emptyCart) (by decide) (by decide) (by decide) (by decide)
     (fun _ _ => rfl) (fun _ _ => rfl)⟩

end ProductCard
